import Mathlib

/-!
Shallow embedding of the two AWS Lambda modules of the warranty-ticket
pipeline:

* `src/lambda_abre_ticket/lambda_function.py` (intake: validation, ticket
  construction, SQS enqueue) — namespace `AbreTicket`;
* `src/lambda_processamento_ticket/lambda_function.py` (processing:
  eligibility decision, DynamoDB write, SNS notification, batch handler) —
  namespace `ProcessamentoTicket`.

External effects are made explicit: the SQS queue is a list of messages, the
DynamoDB table is a keyed map, SNS notifications are collected in a list, and
failures of the external services (DynamoDB put, SNS publish) are injected as
boolean fault flags, matching the points where the Python code wraps those
calls in try/except.  Timestamps are passed in as parameters (`datetime.utcnow`
is a read of the environment).  Python date parsing
(`datetime.fromisoformat`) is external library code; its outcome on a given
string is modelled by the `PDate` sum type: either it parses (and the
whole-day difference to the evaluation instant is some integer), or it raises
(carrying the exception text `str(e)`).
-/

namespace PyStr

/-- The whitespace set of Python `str.strip()` (ASCII part). -/
def pyIsSpace (c : Char) : Bool :=
  c = ' ' || c = '\t' || c = '\n' || c = '\r' || c = '\x0b' || c = '\x0c'

/-- Python `str.strip()`: drop leading and trailing whitespace. -/
def pyStrip (s : String) : String :=
  String.mk (((s.toList.dropWhile pyIsSpace).reverse.dropWhile pyIsSpace).reverse)

/-- Python `str.split(sep)` for a one-character separator, on char lists. -/
def splitChar (c : Char) : List Char → List (List Char)
  | [] => [[]]
  | a :: rest =>
    if a = c then [] :: splitChar c rest
    else
      match splitChar c rest with
      | [] => [[a]]
      | h :: t => (a :: h) :: t

end PyStr

namespace AbreTicket

/-- A JSON value of the intake payload as far as the intake code inspects it:
a string, a dict (only its key set is ever read by the validator; the values
are carried through opaquely and never inspected), or anything else
(`isinstance` checks fail). -/
inductive PyVal where
  | vstr (s : String)
  | vdict (keys : List String)
  | vother
deriving Repr, DecidableEq

/-- The parsed request body.  A `none` field is a key absent from the dict.
`observacoes` is read with `.get("observacoes", "")` and never validated. -/
structure Payload where
  nome_completo : Option PyVal := none
  cpf : Option PyVal := none
  email : Option PyVal := none
  telefone : Option PyVal := none
  endereco : Option PyVal := none
  aparelho : Option PyVal := none
  observacoes : Option String := none
deriving Repr, DecidableEq

def isStr : PyVal → Bool
  | .vstr _ => true
  | _ => false

def isDict : PyVal → Bool
  | .vdict _ => true
  | _ => false

def dictKeys : PyVal → List String
  | .vdict ks => ks
  | _ => []

/-- One iteration of the `required_fields` loop: absent key, then
`isinstance` check (`str` for scalars, `dict` for records). -/
def checkField (name : String) (expectStr : Bool) (v : Option PyVal) : Option String :=
  match v with
  | none => some ("Campo obrigatório ausente: " ++ name)
  | some pv =>
    if expectStr then
      if isStr pv then none else some ("Campo " ++ name ++ " deve ser do tipo str")
    else
      if isDict pv then none else some ("Campo " ++ name ++ " deve ser do tipo dict")

/-- The six top-level checks, in the insertion order of the Python
`required_fields` dict. -/
def mainFieldsError (d : Payload) : Option String :=
  match checkField "nome_completo" true d.nome_completo with
  | some m => some m
  | none =>
  match checkField "cpf" true d.cpf with
  | some m => some m
  | none =>
  match checkField "email" true d.email with
  | some m => some m
  | none =>
  match checkField "telefone" true d.telefone with
  | some m => some m
  | none =>
  match checkField "endereco" false d.endereco with
  | some m => some m
  | none => checkField "aparelho" false d.aparelho

/-- First required sub-key of `endereco` missing from the dict, in source
order. -/
def enderecoError (d : Payload) : Option String :=
  (["rua", "numero", "cidade", "estado", "cep"].find?
      (fun k => ¬ (dictKeys ((d.endereco).getD .vother)).contains k)).map
    (fun k => "Campo obrigatório no endereço: " ++ k)

/-- First required sub-key of `aparelho` missing from the dict, in source
order. -/
def aparelhoError (d : Payload) : Option String :=
  (["marca", "modelo", "numero_serie", "data_compra", "nota_fiscal"].find?
      (fun k => ¬ (dictKeys ((d.aparelho).getD .vother)).contains k)).map
    (fun k => "Campo obrigatório no aparelho: " ++ k)

/-- The string held by an `Option PyVal` known (on the reached code path) to
be a `vstr`. -/
def strOf : Option PyVal → String
  | some (.vstr s) => s
  | _ => ""

/-- `cpf.replace(".", "").replace("-", "")`: drop every dot and dash. -/
def cpfStripped (s : String) : String :=
  String.mk (s.toList.filter (fun c => c ≠ '.' && c ≠ '-'))

/-- `len(cpf) != 11 or not cpf.isdigit()` (negated).  `str.isdigit` is
modelled on ASCII decimal digits. -/
def cpfValid (s : String) : Bool :=
  (cpfStripped s).length == 11 && (cpfStripped s).toList.all Char.isDigit

/-- The element `email.split("@")[1]`: the segment between the first and
second at-sign (or the end of the string).  Only evaluated when the email
contains an at-sign, so the fallback is unreachable there. -/
def atSegment (e : String) : String :=
  String.mk ((PyStr.splitChar '@' e.toList).getD 1 [])

/-- `"@" in email and "." in email.split("@")[1]` — the negation of the
rejection test on line 57 of the intake source. -/
def emailValid (e : String) : Bool :=
  e.toList.contains '@' && (atSegment e).toList.contains '.'

/-- `validate_required_fields`, line by line: six top-level checks, then
address sub-keys, then device sub-keys, then CPF shape, then email shape;
the first failing check returns `(False, message)`. -/
def validate_required_fields (d : Payload) : Bool × String :=
  match mainFieldsError d with
  | some m => (false, m)
  | none =>
  match enderecoError d with
  | some m => (false, m)
  | none =>
  match aparelhoError d with
  | some m => (false, m)
  | none =>
  if ¬ cpfValid (strOf d.cpf) then (false, "CPF inválido")
  else if ¬ emailValid (strOf d.email) then (false, "Email inválido")
  else (true, "")

/-- The `ticket_data` dict assembled by the intake handler. -/
structure TicketData where
  ticket_id : String
  status : String
  data_abertura : String
  nome_completo : PyVal
  cpf : PyVal
  email : PyVal
  telefone : PyVal
  endereco : PyVal
  aparelho : PyVal
  observacoes : String
  created_at : String
deriving Repr, DecidableEq

def mkTicketData (uuid timestamp : String) (b : Payload) : TicketData :=
  { ticket_id := uuid
    status := "PENDENTE"
    data_abertura := timestamp
    nome_completo := b.nome_completo.getD .vother
    cpf := b.cpf.getD .vother
    email := b.email.getD .vother
    telefone := b.telefone.getD .vother
    endereco := b.endereco.getD .vother
    aparelho := b.aparelho.getD .vother
    observacoes := b.observacoes.getD ""
    created_at := timestamp }

/-- An SQS message: serialized ticket body plus the two message attributes. -/
structure QueueMessage where
  body : TicketData
  attrTicketId : String
  attrStatus : String
deriving Repr, DecidableEq

def mkQueueMessage (t : TicketData) : QueueMessage :=
  { body := t, attrTicketId := t.ticket_id, attrStatus := "PENDENTE" }

/-- The JSON body of the HTTP response (201/400 envelope fields included). -/
structure HttpResponse where
  statusCode : Nat
  success : Bool
  message : String
  ticket_id : Option String := none
  status : Option String := none
  sqs_message_id : Option String := none
  ticket_data : Option TicketData := none
deriving Repr, DecidableEq

/-- The external world the intake handler can touch: the DynamoDB table (a
handle is created by the module but the handler never reads or writes it) and
the SQS queue. -/
structure IntakeState where
  store : List (String × TicketData)
  queue : List QueueMessage
deriving Repr, DecidableEq

structure IntakeResult where
  response : HttpResponse
  state : IntakeState
deriving Repr, DecidableEq

/-- `lambda_handler` of the intake module, after body parsing: validate; on
failure a 400 with the validator message; on success build `ticket_data`
with a fresh `uuid` and `timestamp = datetime.utcnow().isoformat()`, then
either send one SQS message (when `QUEUE_URL` is set) and answer 201 with the
`MessageId`, or (development mode) answer 201 echoing the full ticket.  The
handler contains no DynamoDB call: `st.store` is threaded through
untouched. -/
def lambda_handler (queueUrl : Option String) (uuid timestamp msgId : String)
    (body : Payload) (st : IntakeState) : IntakeResult :=
  match validate_required_fields body with
  | (false, msg) =>
    { response := { statusCode := 400, success := false, message := msg }
      state := st }
  | (true, _) =>
    let t := mkTicketData uuid timestamp body
    match queueUrl with
    | some _ =>
      { response :=
          { statusCode := 201, success := true, message := "Ticket criado com sucesso"
            ticket_id := some uuid, status := some "PENDENTE"
            sqs_message_id := some msgId }
        state := { store := st.store, queue := st.queue ++ [mkQueueMessage t] } }
    | none =>
      { response :=
          { statusCode := 201, success := true
            message := "Ticket criado com sucesso (modo desenvolvimento)"
            ticket_id := some uuid, status := some "PENDENTE"
            ticket_data := some t }
        state := st }

end AbreTicket

namespace ProcessamentoTicket

/-- Outcome of `datetime.fromisoformat(data_compra.replace("Z", "+00:00"))`
followed by `(datetime.utcnow() - obj.replace(tzinfo=None)).days` for a given
evaluation instant.  `parsed purchaseDay` means the string parses and
`purchaseDay` is the purchase instant as a whole-day number on the same axis
as the evaluation day; `unparsable e` means `fromisoformat` raises a
`ValueError` whose `str(e)` is `e`. -/
inductive PDate where
  | parsed (purchaseDay : Int)
  | unparsable (e : String)
deriving Repr, DecidableEq

/-- The `aparelho` record of a ticket as read by the processing module
(`.get` accesses; a missing or falsy `data_compra` — `None` or the empty
string — is `none`). -/
structure Aparelho where
  marca : String
  modelo : String
  numero_serie : Option String := none
  data_compra : Option PDate := none
  nota_fiscal : Option String := none
deriving Repr, DecidableEq

/-- A deserialized ticket as consumed by the processing module.  The
`endereco` dict is carried through opaquely. -/
structure ProcTicket where
  ticket_id : String
  data_abertura : String
  nome_completo : String
  cpf : String
  email : String
  telefone : String
  endereco : String
  aparelho : Aparelho
  observacoes : Option String := none
deriving Repr, DecidableEq

/-- The `{"status": ..., "motivo": ...}` dict returned by `process_ticket`. -/
structure Decision where
  status : String
  motivo : String
deriving Repr, DecidableEq

/-- `(utcnow - data_compra_obj).days / 30`, exactly, as a rational. -/
def mesesGarantia (nowDay purchaseDay : Int) : ℚ :=
  (nowDay - purchaseDay : ℚ) / 30

/-- Python `f"{x:.1f}"` for `x = days / 30`: round to one decimal and print.
For these values the tie case of the float rounding never arises (`days / 3`
is never half an odd integer), so rounding the exact rational matches the
float formatting. -/
def fmt1 (q : ℚ) : String :=
  let tenths : Int := round (q * 10)
  (if tenths < 0 then "-" else "")
    ++ toString (tenths.natAbs / 10) ++ "." ++ toString (tenths.natAbs % 10)

/-- The invoice-reference rejection test on line 41:
`not nota_fiscal or len(nota_fiscal.strip()) == 0`, with
`nota_fiscal = aparelho.get("nota_fiscal", "")`. -/
def notaBlank (t : ProcTicket) : Bool :=
  let nf := (t.aparelho.nota_fiscal).getD ""
  nf == "" || (PyStr.pyStrip nf).length == 0

/-- The serial-number rejection test on line 48:
`not numero_serie or len(numero_serie.strip()) < 5`, with
`numero_serie = aparelho.get("numero_serie", "")`. -/
def serialShort (t : ProcTicket) : Bool :=
  let ns := (t.aparelho.numero_serie).getD ""
  ns == "" || (PyStr.pyStrip ns).length < 5

/-- Invoice rule, then serial rule, then acceptance: lines 39-55 of the
processing source (reached only when the warranty rule neither rejected nor
raised). -/
def restRules (t : ProcTicket) : Decision :=
  if notaBlank t then
    { status := "REJEITADO", motivo := "Nota fiscal não informada ou inválida." }
  else if serialShort t then
    { status := "REJEITADO", motivo := "Número de série inválido ou não informado." }
  else
    { status := "ACEITO", motivo := "Ticket aprovado. Aparelho elegível para troca na garantia." }

/-- `process_ticket`: warranty-window rule (months computed as whole days
over 30, rejection when strictly more than 12), then `restRules`.  A present
but unparsable `data_compra` makes `fromisoformat` raise inside the `try`,
so control jumps to the `except` on line 57, which returns REJEITADO with the
exception text — the remaining rules are not evaluated. -/
def process_ticket (nowDay : Int) (t : ProcTicket) : Decision :=
  match t.aparelho.data_compra with
  | some (.unparsable e) =>
    { status := "REJEITADO", motivo := "Erro ao processar validações: " ++ e }
  | some (.parsed purchaseDay) =>
    if mesesGarantia nowDay purchaseDay > 12 then
      { status := "REJEITADO"
        motivo := "Aparelho fora da garantia. Comprado há "
          ++ fmt1 (mesesGarantia nowDay purchaseDay) ++ " meses." }
    else restRules t
  | none => restRules t

/-- A persisted DynamoDB item (the `item` dict of `save_to_dynamodb`). -/
structure DbItem where
  ticket_id : String
  status : String
  data_abertura : String
  data_processamento : String
  nome_completo : String
  cpf : String
  email : String
  telefone : String
  endereco : String
  aparelho : Aparelho
  observacoes : String
  motivo_processamento : String
  updated_at : String
deriving Repr, DecidableEq

/-- The DynamoDB table, keyed by `ticket_id`. -/
def Store : Type := String → Option DbItem

def emptyStore : Store := fun _ => none

/-- DynamoDB `put_item`: an unconditional write of the item under its key —
it overwrites an existing item and creates the item when the key is absent
(no condition expression is supplied in the source). -/
def put_item (s : Store) (it : DbItem) : Store :=
  fun k => if k = it.ticket_id then some it else s k

def build_item (nowIso : String) (t : ProcTicket) (p : Decision) : DbItem :=
  { ticket_id := t.ticket_id
    status := p.status
    data_abertura := t.data_abertura
    data_processamento := nowIso
    nome_completo := t.nome_completo
    cpf := t.cpf
    email := t.email
    telefone := t.telefone
    endereco := t.endereco
    aparelho := t.aparelho
    observacoes := (t.observacoes).getD ""
    motivo_processamento := p.motivo
    updated_at := nowIso }

/-- `save_to_dynamodb`: build the item and `put_item` it; any exception from
the store is caught inside the function, which then returns `False` leaving
the table unwritten.  `storeFails` injects that external failure. -/
def save_to_dynamodb (storeFails : Bool) (nowIso : String) (s : Store)
    (t : ProcTicket) (p : Decision) : Store × Bool :=
  if storeFails then (s, false)
  else (put_item s (build_item nowIso t p), true)

/-- One SNS publication (topic, subject, message, message attributes). -/
structure Notification where
  topicArn : String
  subject : String
  message : String
  attrTicketId : String
  attrStatus : String
  attrEmail : String
deriving Repr, DecidableEq

/-- The notification body f-string (a `.get` that yields `None` prints as
the text `None`). -/
def mkMessage (t : ProcTicket) (p : Decision) : String :=
  "\nOlá " ++ t.nome_completo
    ++ ",\n\nSeu ticket de troca de aparelho foi processado.\n\nID do Ticket: "
    ++ t.ticket_id
    ++ "\nStatus: " ++ p.status
    ++ "\nMotivo: " ++ p.motivo
    ++ "\n\nAparelho: " ++ t.aparelho.marca ++ " " ++ t.aparelho.modelo
    ++ "\nNúmero de Série: " ++ ((t.aparelho.numero_serie).getD "None")
    ++ "\n\nData de Abertura: " ++ t.data_abertura
    ++ "\n\nEm caso de dúvidas, entre em contato conosco.\n\nAtenciosamente,\nEquipe de Garantia\n        "

def mkNotification (arn : String) (t : ProcTicket) (p : Decision) : Notification :=
  { topicArn := arn
    subject := "Status do Ticket #" ++ String.mk (t.ticket_id.toList.take 8)
    message := mkMessage t p
    attrTicketId := t.ticket_id
    attrStatus := p.status
    attrEmail := t.email }

/-- `sns.publish`: the external call, which may raise. -/
def sns_publish (publishFails : Bool) (n : Notification) : Except String Notification :=
  if publishFails then .error "SNS publish failed" else .ok n

/-- `notify_user`: a no-op when `SNS_TOPIC_ARN` is unset; otherwise publish,
catching any exception inside the function (the failure is logged and
swallowed, so nothing propagates to the caller). -/
def notify_user (arn : Option String) (publishFails : Bool)
    (t : ProcTicket) (p : Decision) : Option Notification :=
  match arn with
  | none => none
  | some a =>
    match sns_publish publishFails (mkNotification a t p) with
    | .error _ => none
    | .ok n => some n

/-- One SQS record of the handler event: either its body fails
`json.loads` (carrying the decode-error text), or it deserializes to a
ticket.  The two fault flags inject failures of the two external calls made
while handling the record. -/
inductive SqsRecord where
  | malformed (err : String)
  | okRec (t : ProcTicket) (storeFails : Bool) (publishFails : Bool)
deriving Repr, DecidableEq

/-- External state accumulated by the worker: the DynamoDB table and the
list of SNS notifications published so far. -/
structure WorkerState where
  store : Store
  sent : List Notification

/-- The body of the per-record `try`: decode (raising on a malformed body),
decide, save (failure handled inside `save_to_dynamodb`, return value
ignored), notify (failure handled inside `notify_user`).  The only exception
that escapes to the per-record `except` is the JSON decode error. -/
def recordBody (arn : Option String) (nowDay : Int) (nowIso : String)
    (st : WorkerState) (r : SqsRecord) : Except String WorkerState :=
  match r with
  | .malformed err => .error ("Erro ao decodificar JSON da mensagem SQS: " ++ err)
  | .okRec t storeFails publishFails =>
    let p := process_ticket nowDay t
    let saved := save_to_dynamodb storeFails nowIso st.store t p
    let n := notify_user arn publishFails t p
    .ok { store := saved.fst, sent := st.sent ++ n.toList }

/-- One loop iteration of the batch handler: run the record body under its
`try/except`; on an exception, log and `continue` with the state
unchanged. -/
def handleRecord (arn : Option String) (nowDay : Int) (nowIso : String)
    (st : WorkerState) (r : SqsRecord) : WorkerState :=
  match recordBody arn nowDay nowIso st r with
  | .error _ => st
  | .ok st2 => st2

/-- The handler response: always status 200 and
`processed = len(event["Records"])`. -/
structure ProcResponse where
  statusCode : Nat
  message : String
  processed : Nat
deriving Repr, DecidableEq

/-- `lambda_handler` of the processing module: fold the per-record step over
the batch, then report 200 with the total record count. -/
def lambda_handler (arn : Option String) (nowDay : Int) (nowIso : String)
    (event : List SqsRecord) (st : WorkerState) : WorkerState × ProcResponse :=
  (event.foldl (handleRecord arn nowDay nowIso) st,
   { statusCode := 200
     message := "Tickets processados com sucesso"
     processed := event.length })

end ProcessamentoTicket

/-! Concrete sample data used by witnesses and counterexamples, and the
spec-worded email predicate used to compare the validator against the claim
wording. -/

namespace AbreTicket

/-- The portion of the string after the first at-sign (everything that
follows it, further at-signs included). -/
def afterFirstAt (e : String) : String :=
  String.mk ((e.toList.dropWhile (fun c => c ≠ '@')).drop 1)

/-- Modelled from the claim wording (refinement side, not from the source):
an email is acceptable when it has an at-sign and a dot somewhere in the
portion after the at-sign. -/
def claimEmailValid (e : String) : Bool :=
  e.toList.contains '@' && (afterFirstAt e).toList.contains '.'

/-- A complete, well-typed address dict. -/
def endOk : PyVal := .vdict ["rua", "numero", "cidade", "estado", "cep"]

/-- A complete, well-typed device dict. -/
def apOk : PyVal := .vdict ["marca", "modelo", "numero_serie", "data_compra", "nota_fiscal"]

/-- A payload passing every validation rule. -/
def pOk : Payload :=
  { nome_completo := some (.vstr "Ana Silva")
    cpf := some (.vstr "123.456.789-01")
    email := some (.vstr "ana@example.com")
    telefone := some (.vstr "11999999999")
    endereco := some endOk
    aparelho := some apOk
    observacoes := some "obs" }

/-- `pOk` with an email holding two at-signs and a dot only after the second
one. -/
def pC8 : Payload := { pOk with email := some (.vstr "a@b@c.d") }

/-- `pOk` with a CPF that is too short. -/
def pC8w : Payload := { pOk with cpf := some (.vstr "123") }

end AbreTicket

namespace ProcessamentoTicket

def sampleAparelho : Aparelho :=
  { marca := "Acme"
    modelo := "X1"
    numero_serie := some "ABCDE"
    data_compra := some (.parsed 0)
    nota_fiscal := some "NF-001" }

def sampleTicket : ProcTicket :=
  { ticket_id := "t-0001"
    data_abertura := "2026-01-01T00:00:00"
    nome_completo := "Ana Silva"
    cpf := "12345678901"
    email := "ana@example.com"
    telefone := "11999999999"
    endereco := "Rua A 1"
    aparelho := sampleAparelho
    observacoes := none }

/-- `sampleTicket` with a purchase-date string on which `fromisoformat`
raises. -/
def tC3 : ProcTicket :=
  { sampleTicket with
    aparelho := { sampleAparelho with data_compra := some (.unparsable "Invalid isoformat string") } }

/-- `sampleTicket` with no purchase date. -/
def tNoDate : ProcTicket :=
  { sampleTicket with aparelho := { sampleAparelho with data_compra := none } }

def decC4 : Decision :=
  ⟨"ACEITO", "Ticket aprovado. Aparelho elegível para troca na garantia."⟩

/-- Whether an `Except` carries a value, i.e. the computation it models did
not raise. -/
def noThrow (x : Except String WorkerState) : Bool :=
  match x with
  | .ok _ => true
  | .error _ => false

end ProcessamentoTicket

/-! Helper lemmas. -/

namespace ProcessamentoTicket

/-- A string has length zero exactly when it is empty. -/
theorem string_len_zero (s : String) : s.length = 0 ↔ s = "" := by
  cases s with
  | mk data =>
    cases data with
    | nil => simp
    | cons a l =>
      constructor
      · intro h
        exact absurd h (by simp [String.length])
      · intro h
        exact absurd (congrArg String.data h) (by simp)

/-- The strict warranty comparison on exact rationals coincides with the
360-day threshold on whole days. -/
theorem mesesGarantia_gt_iff (nowDay purchaseDay : Int) :
    mesesGarantia nowDay purchaseDay > 12 ↔ nowDay - purchaseDay > 360 := by
  unfold mesesGarantia
  rw [gt_iff_lt, lt_div_iff₀ (by norm_num : (0:ℚ) < 30)]
  constructor
  · intro h
    have h2 : (360 : ℚ) < ((nowDay - purchaseDay : Int) : ℚ) := by push_cast; linarith
    exact_mod_cast h2
  · intro h
    have h2 : (360 : ℚ) < ((nowDay - purchaseDay : Int) : ℚ) := by exact_mod_cast h
    push_cast at h2
    linarith

/-- The invoice test fires exactly on a missing, empty or whitespace-only
reference. -/
theorem notaBlank_iff (t : ProcTicket) :
    notaBlank t = true ↔ PyStr.pyStrip ((t.aparelho.nota_fiscal).getD "") = "" := by
  unfold notaBlank
  simp only [Bool.or_eq_true, beq_iff_eq]
  constructor
  · intro h
    rcases h with h | h
    · rw [h]
      rfl
    · exact (string_len_zero _).mp h
  · intro h
    refine Or.inr ((string_len_zero _).mpr h)

/-- The serial test fires exactly on a trimmed length below five. -/
theorem serialShort_iff (t : ProcTicket) :
    serialShort t = true ↔ (PyStr.pyStrip ((t.aparelho.numero_serie).getD "")).length < 5 := by
  unfold serialShort
  simp only [Bool.or_eq_true, beq_iff_eq, decide_eq_true_eq]
  constructor
  · intro h
    rcases h with h | h
    · rw [h]
      decide
    · exact h
  · intro h
    exact Or.inr h

/-- Writing the same item twice is the same as writing it once. -/
theorem put_item_idem (s : Store) (it : DbItem) :
    put_item (put_item s it) it = put_item s it := by
  funext k
  unfold put_item
  by_cases h : k = it.ticket_id <;> simp [h]

/-- The last three rules only ever answer ACEITO or REJEITADO. -/
theorem restRules_status (t : ProcTicket) :
    (restRules t).status = "ACEITO" ∨ (restRules t).status = "REJEITADO" := by
  unfold restRules
  split_ifs <;> simp

end ProcessamentoTicket

/-! Claim theorems for the processing module. -/

namespace ProcessamentoTicket

/-- C2: `process_ticket` evaluates the three rules in order with
short-circuit and the exact thresholds.  Elapsed months are elapsed days over
30, so the warranty rejection (with the months cited to one decimal place in
the reason) fires exactly when strictly more than 360 days have elapsed —
exactly 12.0 months falls through.  Otherwise a missing or whitespace-only
invoice reference rejects; otherwise a serial number with stripped length
below 5 rejects (exactly 5 passes); otherwise the ticket is accepted with
the standard approval reason. -/
theorem c2_decide_rules (nowDay : Int) (t : ProcTicket) :
    (∀ purchaseDay, t.aparelho.data_compra = some (.parsed purchaseDay) →
      (mesesGarantia nowDay purchaseDay > 12 ↔ nowDay - purchaseDay > 360)
      ∧ (nowDay - purchaseDay > 360 →
          process_ticket nowDay t =
            ⟨"REJEITADO", "Aparelho fora da garantia. Comprado há "
              ++ fmt1 (mesesGarantia nowDay purchaseDay) ++ " meses."⟩)
      ∧ (nowDay - purchaseDay ≤ 360 → process_ticket nowDay t = restRules t))
    ∧ (PyStr.pyStrip ((t.aparelho.nota_fiscal).getD "") = "" →
        restRules t = ⟨"REJEITADO", "Nota fiscal não informada ou inválida."⟩)
    ∧ (PyStr.pyStrip ((t.aparelho.nota_fiscal).getD "") ≠ "" →
        (PyStr.pyStrip ((t.aparelho.numero_serie).getD "")).length < 5 →
        restRules t = ⟨"REJEITADO", "Número de série inválido ou não informado."⟩)
    ∧ (PyStr.pyStrip ((t.aparelho.nota_fiscal).getD "") ≠ "" →
        5 ≤ (PyStr.pyStrip ((t.aparelho.numero_serie).getD "")).length →
        restRules t = ⟨"ACEITO", "Ticket aprovado. Aparelho elegível para troca na garantia."⟩) := by
  refine ⟨?_, ?_, ?_, ?_⟩
  · intro d hd
    refine ⟨mesesGarantia_gt_iff nowDay d, ?_, ?_⟩
    · intro h
      have hm : mesesGarantia nowDay d > 12 := (mesesGarantia_gt_iff nowDay d).mpr h
      simp [process_ticket, hd, hm]
    · intro h
      have hm : ¬ mesesGarantia nowDay d > 12 := by
        rw [mesesGarantia_gt_iff]
        omega
      simp [process_ticket, hd, hm]
  · intro h
    have hb : notaBlank t = true := (notaBlank_iff t).mpr h
    simp [restRules, hb]
  · intro h1 h2
    have hb : notaBlank t = false := by
      rw [← Bool.not_eq_true, notaBlank_iff]
      exact h1
    have hs : serialShort t = true := (serialShort_iff t).mpr h2
    simp [restRules, hb, hs]
  · intro h1 h2
    have hb : notaBlank t = false := by
      rw [← Bool.not_eq_true, notaBlank_iff]
      exact h1
    have hs : serialShort t = false := by
      rw [← Bool.not_eq_true, serialShort_iff]
      omega
    simp [restRules, hb, hs]

/-- C2 witness: at 363 elapsed days the sample ticket is rejected by the
warranty rule and at 360 elapsed days (exactly 12.0 months) it is
accepted. -/
theorem c2_decide_rules_witness :
    process_ticket 363 sampleTicket =
      ⟨"REJEITADO", "Aparelho fora da garantia. Comprado há "
        ++ fmt1 (mesesGarantia 363 0) ++ " meses."⟩
    ∧ process_ticket 360 sampleTicket =
      ⟨"ACEITO", "Ticket aprovado. Aparelho elegível para troca na garantia."⟩ := by
  constructor
  · exact ((c2_decide_rules 363 sampleTicket).1 0 rfl).2.1 (by decide)
  · have h1 := ((c2_decide_rules 360 sampleTicket).1 0 rfl).2.2 (by decide)
    have h2 := (c2_decide_rules 360 sampleTicket).2.2.2 (by decide) (by decide)
    rw [h1, h2]

/-- C3 counterexample: on a ticket whose purchase date is present but
unparsable, with valid invoice and serial, the invoice/serial rules alone
would accept, yet `process_ticket` rejects with the caught-exception reason:
the warranty stage itself causes the rejection instead of being skipped. -/
theorem c3_counterexample :
    restRules tC3 = ⟨"ACEITO", "Ticket aprovado. Aparelho elegível para troca na garantia."⟩
    ∧ process_ticket 0 tC3
        = ⟨"REJEITADO", "Erro ao processar validações: Invalid isoformat string"⟩ := by
  constructor
  · decide
  · rfl

/-- C3 amended: if the purchase date is absent the warranty rule is skipped
and the decision is exactly that of the invoice and serial rules; if it is
present but unparsable, the parse exception is caught by the fail-closed
handler and the ticket is rejected with the exception text, without
evaluating the remaining rules. -/
theorem c3_amended (nowDay : Int) (t : ProcTicket) :
    (t.aparelho.data_compra = none → process_ticket nowDay t = restRules t)
    ∧ (∀ e, t.aparelho.data_compra = some (.unparsable e) →
        process_ticket nowDay t = ⟨"REJEITADO", "Erro ao processar validações: " ++ e⟩) := by
  constructor
  · intro h
    simp [process_ticket, h]
  · intro e h
    simp [process_ticket, h]

/-- C3 amended witness: concrete instances of both branches. -/
theorem c3_amended_witness :
    process_ticket 9999 tNoDate = restRules tNoDate
    ∧ process_ticket 0 tC3 = ⟨"REJEITADO", "Erro ao processar validações: Invalid isoformat string"⟩ :=
  ⟨(c3_amended 9999 tNoDate).1 rfl, (c3_amended 0 tC3).2 "Invalid isoformat string" rfl⟩

/-- C4 counterexample: the store write is a DynamoDB `put_item` with no
condition.  Writing a ticket whose id is absent from the (empty) store
succeeds (returns True) and creates the record — it does not fail with any
NotFoundError. -/
theorem c4_counterexample :
    emptyStore "t-0001" = none
    ∧ (save_to_dynamodb false "2026-02-02T00:00:00" emptyStore sampleTicket decC4).snd = true
    ∧ (save_to_dynamodb false "2026-02-02T00:00:00" emptyStore sampleTicket decC4).fst "t-0001"
        = some (build_item "2026-02-02T00:00:00" sampleTicket decC4) := by
  refine ⟨rfl, rfl, ?_⟩
  decide

/-- C4 amended: `save_to_dynamodb` is an unconditional upsert: when the
store call goes through it writes the built item under its `ticket_id`
(creating the record when the key was absent) and returns True; it never
reports a missing key, and returns False exactly when the store itself
errors, leaving the table unchanged. -/
theorem c4_amended (nowIso : String) (s : Store) (t : ProcTicket) (p : Decision) :
    save_to_dynamodb false nowIso s t p = (put_item s (build_item nowIso t p), true)
    ∧ (put_item s (build_item nowIso t p)) t.ticket_id = some (build_item nowIso t p)
    ∧ save_to_dynamodb true nowIso s t p = (s, false) := by
  refine ⟨rfl, ?_, rfl⟩
  simp [put_item, build_item]

/-- C5: processing the same queue message twice at the same evaluation time
leaves the ticket store exactly as processing it once — the second pass
recomputes the same decision and overwrites the record with an identical
item. -/
theorem c5_idempotent (arn : Option String) (nowDay : Int) (nowIso : String)
    (st : WorkerState) (r : SqsRecord) :
    ((lambda_handler arn nowDay nowIso [r] (lambda_handler arn nowDay nowIso [r] st).fst).fst).store
      = ((lambda_handler arn nowDay nowIso [r] st).fst).store := by
  cases r with
  | malformed e => rfl
  | okRec t sF pF =>
    cases sF with
    | true => rfl
    | false =>
      simp [lambda_handler, handleRecord, recordBody, save_to_dynamodb, put_item_idem]

/-- C6: per-message failures are contained.  A store failure or a notifier
failure never escapes the record body (only a malformed payload does, and it
is caught by the per-record handler); a notifier failure leaves the store
effect of the current message intact; and the batch handler always continues
with the remaining records after any record whatsoever. -/
theorem c6_batch_isolation (arn : Option String) (nowDay : Int) (nowIso : String) :
    (∀ st t sF pF, noThrow (recordBody arn nowDay nowIso st (.okRec t sF pF)) = true)
    ∧ (∀ st t sF,
        (handleRecord arn nowDay nowIso st (.okRec t sF true)).store
          = (handleRecord arn nowDay nowIso st (.okRec t sF false)).store)
    ∧ (∀ st r rest,
        lambda_handler arn nowDay nowIso (r :: rest) st
          = (List.foldl (handleRecord arn nowDay nowIso)
              (handleRecord arn nowDay nowIso st r) rest,
             ⟨200, "Tickets processados com sucesso", rest.length + 1⟩)) :=
  ⟨fun _ _ _ _ => rfl, fun _ _ _ => rfl, fun _ _ _ => rfl⟩

/-- C7: `process_ticket` is total and fail-closed: it always answers ACEITO
or REJEITADO (it is a total function of its inputs, so it never raises), and
the one internal error that can occur during rule evaluation — the purchase
date parse raising — is mapped to a REJEITADO decision carrying the
exception text. -/
theorem c7_fail_closed (nowDay : Int) (t : ProcTicket) :
    ((process_ticket nowDay t).status = "ACEITO"
      ∨ (process_ticket nowDay t).status = "REJEITADO")
    ∧ (∀ e, t.aparelho.data_compra = some (.unparsable e) →
        process_ticket nowDay t = ⟨"REJEITADO", "Erro ao processar validações: " ++ e⟩) := by
  constructor
  · cases hd : t.aparelho.data_compra with
    | none =>
      have h : process_ticket nowDay t = restRules t := by simp [process_ticket, hd]
      rw [h]
      exact restRules_status t
    | some pd =>
      cases pd with
      | unparsable e =>
        right
        simp [process_ticket, hd]
      | parsed d =>
        by_cases hm : mesesGarantia nowDay d > 12
        · right
          simp [process_ticket, hd, hm]
        · have h : process_ticket nowDay t = restRules t := by simp [process_ticket, hd, hm]
          rw [h]
          exact restRules_status t
  · intro e hd
    simp [process_ticket, hd]

/-- C7 witness: the fail-closed branch at a concrete unparsable date. -/
theorem c7_fail_closed_witness :
    ((process_ticket 7 tC3).status = "ACEITO" ∨ (process_ticket 7 tC3).status = "REJEITADO")
    ∧ process_ticket 7 tC3
        = ⟨"REJEITADO", "Erro ao processar validações: Invalid isoformat string"⟩ :=
  ⟨(c7_fail_closed 7 tC3).1, (c7_fail_closed 7 tC3).2 "Invalid isoformat string" rfl⟩

/-- C10: a failed store write does not stop the unit of work.
`save_to_dynamodb` returns False on error with the table unchanged; the
record handler ignores that Boolean — the notifier is still invoked for that
message — and the batch handler replies 200 with the total record count no
matter which per-message failures occurred. -/
theorem c10_store_failure_ignored (arn : Option String) (nowDay : Int) (nowIso : String) :
    (∀ s t p, save_to_dynamodb true nowIso s t p = (s, false))
    ∧ (∀ st t pF,
        handleRecord arn nowDay nowIso st (.okRec t true pF)
          = { store := st.store
              sent := st.sent ++ (notify_user arn pF t (process_ticket nowDay t)).toList })
    ∧ (∀ event st,
        (lambda_handler arn nowDay nowIso event st).snd
          = ⟨200, "Tickets processados com sucesso", event.length⟩) :=
  ⟨fun _ _ _ => rfl, fun _ _ _ => rfl, fun _ _ => rfl⟩

end ProcessamentoTicket

/-! Claim theorems for the intake module. -/

namespace AbreTicket

/-- C1 counterexample: on a fully valid payload with the queue configured,
the intake handler reports 201 and enqueues the message while the ticket
store stays empty — no `create` happens before (or after) the enqueue; the
handler contains no store write at all. -/
theorem c1_counterexample :
    (lambda_handler (some "https://queue.example/q") "id-1" "2026-01-01T00:00:00" "m-1"
        pOk ⟨[], []⟩).state
      = ⟨[], [mkQueueMessage (mkTicketData "id-1" "2026-01-01T00:00:00" pOk)]⟩
    ∧ (lambda_handler (some "https://queue.example/q") "id-1" "2026-01-01T00:00:00" "m-1"
        pOk ⟨[], []⟩).response.statusCode = 201 := by
  constructor
  · rfl
  · rfl

/-- C1 amended: the intake handler persists nothing: on every valid payload
with the queue URL configured it leaves the ticket store exactly as it was
and appends one `QueueMessage` carrying the full ticket (status PENDENTE,
`data_abertura` set to the current time), reporting 201 success; the ticket
is first written to the store only by the processing stage. -/
theorem c1_amended (url uuid timestamp msgId : String) (body : Payload) (st : IntakeState)
    (h : (validate_required_fields body).fst = true) :
    lambda_handler (some url) uuid timestamp msgId body st
      = { response :=
            { statusCode := 201, success := true
              message := "Ticket criado com sucesso"
              ticket_id := some uuid, status := some "PENDENTE"
              sqs_message_id := some msgId }
          state :=
            { store := st.store
              queue := st.queue ++ [mkQueueMessage (mkTicketData uuid timestamp body)] } } := by
  rcases hq : validate_required_fields body with ⟨b, m⟩
  rw [hq] at h
  simp at h
  subst h
  simp [lambda_handler, hq]

/-- C1 amended witness: the concrete valid payload. -/
theorem c1_amended_witness :
    lambda_handler (some "https://queue.example/q") "id-1" "2026-01-01T00:00:00" "m-1"
        pOk ⟨[], []⟩
      = { response :=
            { statusCode := 201, success := true
              message := "Ticket criado com sucesso"
              ticket_id := some "id-1", status := some "PENDENTE"
              sqs_message_id := some "m-1" }
          state := { store := []
                     queue := [mkQueueMessage (mkTicketData "id-1" "2026-01-01T00:00:00" pOk)] } } :=
  c1_amended "https://queue.example/q" "id-1" "2026-01-01T00:00:00" "m-1" pOk ⟨[], []⟩ (by decide)

/-- C9: with no queue URL configured, a valid payload still gets a 201
success response carrying the assigned ticket id, the PENDENTE status and
the full ticket data echoed in the body, while the state — queue and store —
is completely untouched: nothing is enqueued and nothing is persisted. -/
theorem c9_dev_mode (uuid timestamp msgId : String) (body : Payload) (st : IntakeState)
    (h : (validate_required_fields body).fst = true) :
    lambda_handler none uuid timestamp msgId body st
      = { response :=
            { statusCode := 201, success := true
              message := "Ticket criado com sucesso (modo desenvolvimento)"
              ticket_id := some uuid, status := some "PENDENTE"
              ticket_data := some (mkTicketData uuid timestamp body) }
          state := st } := by
  rcases hq : validate_required_fields body with ⟨b, m⟩
  rw [hq] at h
  simp at h
  subst h
  simp [lambda_handler, hq]

/-- C9 witness: the concrete valid payload in development mode. -/
theorem c9_dev_mode_witness :
    lambda_handler none "id-9" "2026-03-03T00:00:00" "unused" pOk ⟨[], []⟩
      = { response :=
            { statusCode := 201, success := true
              message := "Ticket criado com sucesso (modo desenvolvimento)"
              ticket_id := some "id-9", status := some "PENDENTE"
              ticket_data := some (mkTicketData "id-9" "2026-03-03T00:00:00" pOk) }
          state := ⟨[], []⟩ } :=
  c9_dev_mode "id-9" "2026-03-03T00:00:00" "unused" pOk ⟨[], []⟩ (by decide)

/-- C8 counterexample: the payload is fully present and well-typed, its CPF
passes, and its email "a@b@c.d" has an at-sign and a dot in the portion
after the at-sign — by the claim it should validate — yet the code rejects
it with "Email inválido", because line 57 looks for the dot only in
split("@")[1], the segment between the first and second at-signs. -/
theorem c8_counterexample :
    validate_required_fields pC8 = (false, "Email inválido")
    ∧ claimEmailValid "a@b@c.d" = true
    ∧ mainFieldsError pC8 = none
    ∧ enderecoError pC8 = none
    ∧ aparelhoError pC8 = none
    ∧ cpfValid (strOf pC8.cpf) = true := by
  refine ⟨?_, ?_, ?_, ?_, ?_, ?_⟩ <;> decide

/-- C8 amended: `validate_required_fields` applies its checks in the listed
order and fails on the first violated one with a single message naming the
offending field or rule: a missing top-level field fails with a message
naming the first missing field (in the order nome_completo, cpf, email,
telefone, endereco, aparelho); once the six fields pass presence and type and
the address and device sub-keys are complete, a CPF that is not exactly 11
decimal digits after stripping dots and dashes fails; then an email without
an at-sign or without a dot in the segment between the first and second
at-sign (split("@")[1] — not the whole portion after the at-sign) fails;
otherwise validation succeeds. -/
theorem c8_amended (p : Payload) :
    (p.nome_completo = none →
      validate_required_fields p = (false, "Campo obrigatório ausente: nome_completo"))
    ∧ (checkField "nome_completo" true p.nome_completo = none →
       p.cpf = none →
      validate_required_fields p = (false, "Campo obrigatório ausente: cpf"))
    ∧ (checkField "nome_completo" true p.nome_completo = none →
       checkField "cpf" true p.cpf = none →
       p.email = none →
      validate_required_fields p = (false, "Campo obrigatório ausente: email"))
    ∧ (checkField "nome_completo" true p.nome_completo = none →
       checkField "cpf" true p.cpf = none →
       checkField "email" true p.email = none →
       p.telefone = none →
      validate_required_fields p = (false, "Campo obrigatório ausente: telefone"))
    ∧ (checkField "nome_completo" true p.nome_completo = none →
       checkField "cpf" true p.cpf = none →
       checkField "email" true p.email = none →
       checkField "telefone" true p.telefone = none →
       p.endereco = none →
      validate_required_fields p = (false, "Campo obrigatório ausente: endereco"))
    ∧ (checkField "nome_completo" true p.nome_completo = none →
       checkField "cpf" true p.cpf = none →
       checkField "email" true p.email = none →
       checkField "telefone" true p.telefone = none →
       checkField "endereco" false p.endereco = none →
       p.aparelho = none →
      validate_required_fields p = (false, "Campo obrigatório ausente: aparelho"))
    ∧ (mainFieldsError p = none → enderecoError p = none → aparelhoError p = none →
       cpfValid (strOf p.cpf) = false →
      validate_required_fields p = (false, "CPF inválido"))
    ∧ (mainFieldsError p = none → enderecoError p = none → aparelhoError p = none →
       cpfValid (strOf p.cpf) = true → emailValid (strOf p.email) = false →
      validate_required_fields p = (false, "Email inválido"))
    ∧ (mainFieldsError p = none → enderecoError p = none → aparelhoError p = none →
       cpfValid (strOf p.cpf) = true → emailValid (strOf p.email) = true →
      validate_required_fields p = (true, ""))
    ∧ (emailValid (strOf p.email) = true ↔
        ((strOf p.email).toList.contains '@' = true
          ∧ (atSegment (strOf p.email)).toList.contains '.' = true)) := by
  refine ⟨?_, ?_, ?_, ?_, ?_, ?_, ?_, ?_, ?_, ?_⟩
  · intro h
    have hm : mainFieldsError p = some "Campo obrigatório ausente: nome_completo" := by
      unfold mainFieldsError
      rw [h]
      rfl
    unfold validate_required_fields
    rw [hm]
  · intro h1 h2
    have hm : mainFieldsError p = some "Campo obrigatório ausente: cpf" := by
      unfold mainFieldsError
      rw [h1, h2]
      rfl
    unfold validate_required_fields
    rw [hm]
  · intro h1 h2 h3
    have hm : mainFieldsError p = some "Campo obrigatório ausente: email" := by
      unfold mainFieldsError
      rw [h1, h2, h3]
      rfl
    unfold validate_required_fields
    rw [hm]
  · intro h1 h2 h3 h4
    have hm : mainFieldsError p = some "Campo obrigatório ausente: telefone" := by
      unfold mainFieldsError
      rw [h1, h2, h3, h4]
      rfl
    unfold validate_required_fields
    rw [hm]
  · intro h1 h2 h3 h4 h5
    have hm : mainFieldsError p = some "Campo obrigatório ausente: endereco" := by
      unfold mainFieldsError
      rw [h1, h2, h3, h4, h5]
      rfl
    unfold validate_required_fields
    rw [hm]
  · intro h1 h2 h3 h4 h5 h6
    have hm : mainFieldsError p = some "Campo obrigatório ausente: aparelho" := by
      unfold mainFieldsError
      rw [h1, h2, h3, h4, h5, h6]
      rfl
    unfold validate_required_fields
    rw [hm]
  · intro hm he ha hc
    simp [validate_required_fields, hm, he, ha, hc]
  · intro hm he ha hc hem
    simp [validate_required_fields, hm, he, ha, hc, hem]
  · intro hm he ha hc hem
    simp [validate_required_fields, hm, he, ha, hc, hem]
  · simp [emailValid, Bool.and_eq_true]

/-- C8 amended witness: the short CPF is rejected with the CPF message and
the fully valid payload validates. -/
theorem c8_amended_witness :
    validate_required_fields pC8w = (false, "CPF inválido")
    ∧ validate_required_fields pOk = (true, "") := by
  constructor
  · exact (c8_amended pC8w).2.2.2.2.2.2.1 (by decide) (by decide) (by decide) (by decide)
  · exact (c8_amended pOk).2.2.2.2.2.2.2.2.1 (by decide) (by decide) (by decide)
      (by decide) (by decide)

end AbreTicket
